import Mathlib

/-!
Verification development for the CSV validation and conversion engine of the
data-pipeline-service repository.

The validator (`src/utils/csvValidator.ts`) and converter (`src/utils/csvToJson.ts`)
are embedded as executable Lean functions.  The CSV tokenizer they call is the
external `csv-parse` npm package, whose code is not part of the repository; it is
modelled from the specification (§4.1 Tokenizer contract): header sequence plus a
stream of data rows, strict column-count checking, quoting, trimming and
blank-line skipping, with a header event delivered before the data events.

JavaScript machine integers / floats are avoided: `Number(string)` conversion is
modelled symbolically (`JsNum`: NaN as `none`, infinities, and exact rationals
with the IEEE double overflow threshold applied), which suffices for the
finiteness questions the validator raises.
-/

set_option maxRecDepth 10000

namespace DataPipeline

/-- Whitespace as trimmed by JavaScript string trimming and by `Number()`
conversion (space, tab, line feed, carriage return, vertical tab, form feed;
exotic Unicode spaces are out of scope). -/
def jsAllowedSpaceChar (c : Char) : Bool :=
  c = ' ' || c = '\t' || c = '\n' || c = '\r' || c = Char.ofNat 11 || c = Char.ofNat 12

/-- Trim of a char list on both ends, as JavaScript `trim()` does. -/
def jsTrimChars (l : List Char) : List Char :=
  ((l.dropWhile jsAllowedSpaceChar).reverse.dropWhile jsAllowedSpaceChar).reverse

/-- JavaScript `value.trim()`. -/
def jsTrim (s : String) : String :=
  String.mk (jsTrimChars s.data)

/-- JavaScript `value.toLowerCase()` (ASCII letters; the validator only compares
against ASCII keywords). -/
def jsToLower (s : String) : String :=
  String.mk (s.data.map Char.toLower)

/-- The result of JavaScript `Number(string)` when it is not NaN: an infinity, or
the exact rational value denoted by the literal. -/
inductive JsNum where
  | posInf : JsNum
  | negInf : JsNum
  | fin : ℚ → JsNum
deriving DecidableEq

/-- Smallest magnitude that rounds to an IEEE-754 double infinity:
2^1024 - 2^970. -/
def jsOverflowBound : ℚ := (2 : ℚ) ^ (1024 : ℕ) - (2 : ℚ) ^ (970 : ℕ)

/-- Package a parsed magnitude with its sign, sending overflowing magnitudes to
the infinities as IEEE-754 double rounding does. -/
def mkJsNum (neg : Bool) (q : ℚ) : JsNum :=
  let v : ℚ := if neg then -q else q
  if jsOverflowBound ≤ v then JsNum.posInf
  else if v ≤ -jsOverflowBound then JsNum.negInf
  else JsNum.fin v

/-- Value of a hexadecimal digit character, if it is one. -/
def hexDigitVal (c : Char) : Option Nat :=
  if c.isDigit then some (c.toNat - 48)
  else if 'a' ≤ c && c ≤ 'f' then some (c.toNat - 87)
  else if 'A' ≤ c && c ≤ 'F' then some (c.toNat - 55)
  else none

/-- Digit value restricted to a radix. -/
def radixDigitVal (base : Nat) (c : Char) : Option Nat :=
  (hexDigitVal c).bind (fun d => if d < base then some d else none)

/-- Non-empty digit string in the given radix, as a natural number. -/
def parseRadixNat (base : Nat) (cs : List Char) : Option Nat :=
  if cs.isEmpty then none
  else cs.foldl
    (fun acc c => acc.bind (fun n => (radixDigitVal base c).map (fun d => n * base + d)))
    (some 0)

/-- Fold decimal digit characters onto an accumulator. -/
def decDigitsFold (cs : List Char) : Nat :=
  cs.foldl (fun n c => n * 10 + (c.toNat - 48)) 0

/-- ECMAScript `StrUnsignedDecimalLiteral` without the `Infinity` production:
digits, an optional fraction, an optional exponent; the whole input must be
consumed and at least one mantissa digit must be present. -/
def parseDecimalChars (cs : List Char) : Option ℚ :=
  let ip := cs.takeWhile Char.isDigit
  let r1 := cs.dropWhile Char.isDigit
  let fpr2 : List Char × List Char :=
    match r1 with
    | c :: t => if c = '.' then (t.takeWhile Char.isDigit, t.dropWhile Char.isDigit) else ([], r1)
    | [] => ([], r1)
  let fp := fpr2.1
  let r2 := fpr2.2
  if ip.isEmpty && fp.isEmpty then none
  else
    let mant : ℚ := (decDigitsFold (ip ++ fp) : ℚ) / (10 : ℚ) ^ fp.length
    match r2 with
    | [] => some mant
    | e :: t =>
      if e = 'e' || e = 'E' then
        let sgnDs : Bool × List Char :=
          match t with
          | s :: t2 => if s = '+' then (false, t2) else if s = '-' then (true, t2) else (false, t)
          | [] => (false, [])
        let ds := sgnDs.2
        if ds.isEmpty || !ds.all Char.isDigit then none
        else
          let ev : ℤ := if sgnDs.1 then -(decDigitsFold ds : ℤ) else (decDigitsFold ds : ℤ)
          some (mant * (10 : ℚ) ^ ev)
      else none

/-- JavaScript `Number(string)` on a string: `none` is NaN.  Implements the
ECMAScript StringToNumber grammar: surrounding whitespace, an optional sign with
a decimal literal or `Infinity`, or an unsigned binary/octal/hex literal. -/
def jsStrToNumber (s : String) : Option JsNum :=
  let cs := jsTrimChars s.data
  match cs with
  | [] => some (JsNum.fin 0)
  | c0 :: rest0 =>
    let signBody : Bool × Bool × List Char :=
      if c0 = '+' then (false, true, rest0)
      else if c0 = '-' then (true, true, rest0)
      else (false, false, cs)
    let neg := signBody.1
    let hasSign := signBody.2.1
    let body := signBody.2.2
    if body = ("Infinity").data then
      some (if neg then JsNum.negInf else JsNum.posInf)
    else
      match body, hasSign with
      | '0' :: x :: t, false =>
        if x = 'x' || x = 'X' then (parseRadixNat 16 t).map (fun n => mkJsNum false (n : ℚ))
        else if x = 'o' || x = 'O' then (parseRadixNat 8 t).map (fun n => mkJsNum false (n : ℚ))
        else if x = 'b' || x = 'B' then (parseRadixNat 2 t).map (fun n => mkJsNum false (n : ℚ))
        else (parseDecimalChars body).map (mkJsNum neg)
      | _, _ => (parseDecimalChars body).map (mkJsNum neg)

/-- Modelled from the spec: the `date` type predicate delegates to the host's
general-purpose date parser (`Date.parse`, not code of this repository); the
model recognizes the ECMA-262 date string format `YYYY-MM-DD`, host-specific
fallback formats being out of scope (§1 non-goals). -/
def jsDateParseValid (s : String) : Bool :=
  match s.data with
  | [y1, y2, y3, y4, h1, m1, m2, h2, d1, d2] =>
    y1.isDigit && y2.isDigit && y3.isDigit && y4.isDigit &&
    h1 = '-' && h2 = '-' && m1.isDigit && m2.isDigit && d1.isDigit && d2.isDigit &&
    (let mo := (m1.toNat - 48) * 10 + (m2.toNat - 48)
     let dy := (d1.toNat - 48) * 10 + (d2.toNat - 48)
     decide (1 ≤ mo) && decide (mo ≤ 12) && decide (1 ≤ dy) && decide (dy ≤ 31))
  | _ => false

/-! ## Tokenizer (modelled from the spec, §4.1)

The repository delegates tokenizing to the external `csv-parse` package.  The
state machine below is modelled from the spec: fields split on the delimiter,
optional quoting with doubled-quote escapes, records split on newlines
(`\n` or `\r\n`), unquoted fields optionally trimmed, truly empty lines
optionally skipped, and malformed quoting reported as a parse error.  A parse
error carries the records completed before it (the stream had already
delivered them). -/

/-- Tokenizer mode: inside an unquoted field, inside a quoted field, or just
after a closing quote. -/
inductive TokMode where
  | plain : TokMode
  | quoted : TokMode
  | postQuote : TokMode

/-- Modelled from the spec: tokenizer accumulator — completed records
(reversed), completed fields of the current record (reversed), characters of
the current field (reversed), and whether the current field was quoted. -/
structure TokAcc where
  recs : List (List String)
  fields : List String
  cur : List Char
  curQuoted : Bool

/-- Modelled from the spec: close the current field (quoted fields verbatim,
unquoted fields trimmed when trimming is on). -/
def pushField (trim : Bool) (a : TokAcc) : TokAcc :=
  let raw := a.cur.reverse
  let value := String.mk (if a.curQuoted then raw else if trim then jsTrimChars raw else raw)
  { recs := a.recs, fields := value :: a.fields, cur := [], curQuoted := false }

/-- Modelled from the spec: close the current record. -/
def pushRecord (trim : Bool) (a : TokAcc) : TokAcc :=
  let a2 := pushField trim a
  { recs := a2.fields.reverse :: a2.recs, fields := [], cur := [], curQuoted := false }

/-- Modelled from the spec: the current record would come from a line with no
characters at all. -/
def emptyLineState (a : TokAcc) : Bool :=
  a.fields.isEmpty && a.cur.isEmpty && !a.curQuoted

/-- Modelled from the spec: at a record boundary, skip a truly empty line when
configured, close the record otherwise. -/
def endLine (trim skipEmpty : Bool) (a : TokAcc) : TokAcc :=
  if skipEmpty && emptyLineState a then a else pushRecord trim a

/-- Record-delimiter normalization: `\r\n` and a lone `\r` both become `\n`
before the field machine runs (carriage returns inside quoted fields are out of
scope for the model). -/
def normalizeCrLf : List Char → List Char
  | [] => []
  | '\r' :: '\n' :: rest => '\n' :: normalizeCrLf rest
  | '\r' :: rest => '\n' :: normalizeCrLf rest
  | c :: rest => c :: normalizeCrLf rest

/-- Modelled from the spec: the tokenizer state machine, one character per
step.  In `postQuote` a quote is the doubled-quote escape.  Returns the
completed records and, when quoting is malformed, the parse error message
(records completed before the error are kept: the stream had already delivered
them). -/
def tokRun (delim : Char) (trim skipEmpty : Bool) :
    List Char → TokMode → TokAcc → List (List String) × Option String
  | [], TokMode.plain, a =>
    if emptyLineState a then (a.recs.reverse, none)
    else ((pushRecord trim a).recs.reverse, none)
  | [], TokMode.postQuote, a => ((pushRecord trim a).recs.reverse, none)
  | [], TokMode.quoted, a => (a.recs.reverse, some ("Quote Not Closed"))
  | c :: rest, TokMode.plain, a =>
    if c = delim then tokRun delim trim skipEmpty rest TokMode.plain (pushField trim a)
    else if c = '\n' then tokRun delim trim skipEmpty rest TokMode.plain (endLine trim skipEmpty a)
    else if c = '"' then
      if !a.curQuoted && (a.cur.isEmpty || (trim && a.cur.all jsAllowedSpaceChar)) then
        tokRun delim trim skipEmpty rest TokMode.quoted
          { recs := a.recs, fields := a.fields, cur := [], curQuoted := true }
      else (a.recs.reverse, some ("Invalid Opening Quote"))
    else tokRun delim trim skipEmpty rest TokMode.plain
      { recs := a.recs, fields := a.fields, cur := c :: a.cur, curQuoted := a.curQuoted }
  | c :: rest, TokMode.quoted, a =>
    if c = '"' then tokRun delim trim skipEmpty rest TokMode.postQuote a
    else tokRun delim trim skipEmpty rest TokMode.quoted
      { recs := a.recs, fields := a.fields, cur := c :: a.cur, curQuoted := a.curQuoted }
  | c :: rest, TokMode.postQuote, a =>
    if c = '"' then
      tokRun delim trim skipEmpty rest TokMode.quoted
        { recs := a.recs, fields := a.fields, cur := '"' :: a.cur, curQuoted := a.curQuoted }
    else if c = delim then tokRun delim trim skipEmpty rest TokMode.plain (pushField trim a)
    else if c = '\n' then tokRun delim trim skipEmpty rest TokMode.plain (pushRecord trim a)
    else if trim && jsAllowedSpaceChar c then tokRun delim trim skipEmpty rest TokMode.postQuote a
    else (a.recs.reverse, some ("Invalid Closing Quote"))

/-- Modelled from the spec: tokenize whole content into records of raw fields,
with the optional parse error. -/
def tokenizeCsv (delim : Char) (trim skipEmpty : Bool) (content : String) :
    List (List String) × Option String :=
  tokRun delim trim skipEmpty (normalizeCrLf content.data) TokMode.plain
    { recs := [], fields := [], cur := [], curQuoted := false }

/-- A parsed data row: the JavaScript record object, a mapping from column name
to raw string value in key insertion order. -/
abbrev RowObj := List (String × String)

/-- JavaScript object property assignment: an existing key keeps its position
and takes the new value, a new key is appended. -/
def assocSet (l : RowObj) (k v : String) : RowObj :=
  if l.any (fun p => p.1 = k) then l.map (fun p => if p.1 = k then (k, v) else p)
  else l ++ [(k, v)]

/-- Modelled from the spec: build the row object by assigning each header name
its field value in order (duplicate header names collapse as JavaScript object
keys do). -/
def mkRowObj (hdr : List String) (vals : List String) : RowObj :=
  (hdr.zip vals).foldl (fun acc p => assocSet acc p.1 p.2) []

/-- JavaScript `row[column]`: object property lookup. -/
def jsLookup (row : RowObj) (column : String) : Option String :=
  (row.find? (fun p => p.1 = column)).map (fun p => p.2)

/-- Modelled from the spec: outcome of the columns-mode parse.  `header` is the
header record if one was produced (the header event fired), `rows` the data-row
objects delivered before any error, `err` the parse error that aborted the
stream, if any. -/
structure ParseOutcome where
  header : Option (List String)
  rows : List RowObj
  err : Option String
deriving DecidableEq

/-- Modelled from the spec: turn the records after the header into row objects,
enforcing the strict column count (`relax_column_count: false`) and running the
user `on_record` hook; the first failure aborts with the rows already
delivered. -/
def buildRows (hdr : List String) (hook : RowObj → Option String) :
    List (List String) → List RowObj × Option String
  | [] => ([], none)
  | r :: rest =>
    if r.length ≠ hdr.length then
      ([], some ("Invalid Record Length: expect " ++ toString hdr.length ++ ", got "
        ++ toString r.length))
    else
      let obj := mkRowObj hdr r
      match hook obj with
      | some e => ([], some e)
      | none =>
        let tailOut := buildRows hdr hook rest
        (obj :: tailOut.1, tailOut.2)

/-- Modelled from the spec: the columns-mode parse the validator configures
(`columns: true, skip_empty_lines: true, relax_column_count: false, trim:
true`, comma delimiter), with an `on_record` hook. -/
def csvParseWith (hook : RowObj → Option String) (content : String) : ParseOutcome :=
  let tok := tokenizeCsv ',' true true content
  match tok.1 with
  | [] => { header := none, rows := [], err := tok.2 }
  | hdr :: rest =>
    let built := buildRows hdr hook rest
    match built.2 with
    | some e => { header := some hdr, rows := built.1, err := some e }
    | none => { header := some hdr, rows := built.1, err := tok.2 }

/-- Modelled from the spec: the parse as the validator drives it (no
`on_record` hook). -/
def csvParse (content : String) : ParseOutcome :=
  csvParseWith (fun _ => none) content

/-! ## Validator (`src/utils/csvValidator.ts`) -/

/-- The four declared column types (`'string' | 'number' | 'boolean' | 'date'`). -/
inductive ColType where
  | string : ColType
  | number : ColType
  | boolean : ColType
  | date : ColType
deriving DecidableEq

/-- The TypeScript literal naming a column type. -/
def typeName : ColType → String
  | ColType.string => "string"
  | ColType.number => "number"
  | ColType.boolean => "boolean"
  | ColType.date => "date"

/-- `CsvValidationOptions`.  `maxRowLength` and `requiredColumns` keep their
optionality; an absent `columnTypes` record behaves as the empty mapping; an
absent `allowEmptyValues` behaves as `false` (JavaScript `!undefined`). -/
structure CsvValidationOptions where
  requiredColumns : Option (List String) := none
  columnTypes : List (String × ColType) := []
  maxRowLength : Option Nat := none
  allowEmptyValues : Bool := false

/-- `options.columnTypes?.[column]`. -/
def lookupType (types : List (String × ColType)) (column : String) : Option ColType :=
  (types.find? (fun p => p.1 = column)).map (fun p => p.2)

/-- `ValidationError`. -/
structure ValidationError where
  row : Nat
  column : Option String := none
  message : String
deriving DecidableEq

/-- `ValidationResult`. -/
structure ValidationResult where
  isValid : Bool
  errors : List ValidationError
  columnCount : Nat
  rowCount : Nat
deriving DecidableEq

/-- `validateDataType` of `csvValidator.ts`: number is `!isNaN(Number(value))
&& value.trim() !== ''`; boolean is membership of the lowercased value in
`['true', 'false', '0', '1']`; date is `!isNaN(Date.parse(value))`; string
accepts everything. -/
def validateDataType (value : String) : ColType → Bool
  | ColType.number => (jsStrToNumber value).isSome && !(jsTrim value == "")
  | ColType.boolean => ["true", "false", "0", "1"].contains (jsToLower value)
  | ColType.date => jsDateParseValid value
  | ColType.string => true

/-- The aggregated error for missing required columns (pushed once, row 0). -/
def missingColumnsError (missing : List String) : ValidationError :=
  { row := 0, column := none,
    message := "Missing required columns: " ++ String.intercalate (", ") missing }

/-- The header handler: filter empty header names, then the required-column
check pushing one aggregated row-0 error. -/
def headerErrors (opts : CsvValidationOptions) (headers : List String) : List ValidationError :=
  match opts.requiredColumns with
  | none => []
  | some req =>
    let missing := req.filter (fun col => !(headers.contains col))
    if missing.isEmpty then [] else [missingColumnsError missing]

/-- The empty-value error for a column of a data row. -/
def emptyValueError (idx : Nat) (column : String) : ValidationError :=
  { row := idx, column := some column,
    message := "Empty value not allowed in column '" ++ column ++ "'" }

/-- The invalid-type error for a column of a data row. -/
def typeError (idx : Nat) (column value : String) (t : ColType) : ValidationError :=
  { row := idx, column := some column,
    message := "Invalid " ++ typeName t ++ " value '" ++ value ++ "' in column '"
      ++ column ++ "'" }

/-- The per-field body of the data handler's `Object.entries(row).forEach`:
empty-value check (when `allowEmptyValues` is off), then type check (the type
check is not skipped for empty values). -/
def fieldErrors (idx : Nat) (opts : CsvValidationOptions) (column value : String) :
    List ValidationError :=
  (if !opts.allowEmptyValues && jsTrim value == "" then [emptyValueError idx column] else [])
  ++ (match lookupType opts.columnTypes column with
    | some t => if validateDataType value t then [] else [typeError idx column value t]
    | none => [])

/-- The inconsistent-column-count error. -/
def inconsistentError (idx expected got : Nat) : ValidationError :=
  { row := idx, column := none,
    message := "Inconsistent column count: expected " ++ toString expected ++ ", got "
      ++ toString got }

/-- The maximum-row-length error. -/
def maxLengthError (idx n : Nat) : ValidationError :=
  { row := idx, column := none, message := "Row exceeds maximum length of " ++ toString n }

/-- `Object.values(row).filter(v => v !== '').length`: the populated-field
count of a row. -/
def populatedCount (row : RowObj) : Nat :=
  ((row.map Prod.snd).filter (fun v => !(v == ""))).length

/-- The data handler for one row (1-based `idx`): column-count consistency,
maximum row length (JavaScript truthiness: a `maxRowLength` of 0 disables the
check), then the per-field checks. -/
def rowErrors (opts : CsvValidationOptions) (cc idx : Nat) (row : RowObj) :
    List ValidationError :=
  let n := populatedCount row
  (if n ≠ cc then [inconsistentError idx cc n] else [])
  ++ (match opts.maxRowLength with
    | some m => if m ≠ 0 ∧ n > m then [maxLengthError idx m] else []
    | none => [])
  ++ row.flatMap (fun p => fieldErrors idx opts p.1 p.2)

/-- The effective header set: header names with empty entries filtered out
(empty header row when the header event never fired). -/
def effHeaders (content : String) : List String :=
  ((csvParse content).header.getD []).filter (fun h => !(h == ""))

/-- `result.columnCount`: the effective header count. -/
def effColumnCount (content : String) : Nat :=
  (effHeaders content).length

/-- Errors pushed by the header event (none when the event never fired). -/
def headerPhaseErrors (content : String) (opts : CsvValidationOptions) :
    List ValidationError :=
  match (csvParse content).header with
  | none => []
  | some _ => headerErrors opts (effHeaders content)

/-- Errors pushed by all data events, in row order. -/
def allRowErrors (content : String) (opts : CsvValidationOptions) : List ValidationError :=
  ((csvParse content).rows.enum).flatMap
    (fun p => rowErrors opts (effColumnCount content) (p.1 + 1) p.2)

/-- The `ValidationResult` the mutable accumulator of `validateCsvContent`
holds when the promise settles: on `end`, `rowCount` is the number of data
events and `isValid` is `errors.length === 0`; on a parser `error`, the errors
pushed so far are kept, a `Parsing error:` entry is appended, `isValid` is
forced false and `rowCount` keeps its initial 0 (the `end` handler never
runs). -/
def validateCsvContentRun (content : String) (opts : CsvValidationOptions) :
    ValidationResult :=
  match (csvParse content).err with
  | none =>
    { isValid := (headerPhaseErrors content opts ++ allRowErrors content opts).isEmpty
      errors := headerPhaseErrors content opts ++ allRowErrors content opts
      columnCount := effColumnCount content
      rowCount := (csvParse content).rows.length }
  | some m =>
    { isValid := false
      errors := headerPhaseErrors content opts ++ allRowErrors content opts
        ++ [{ row := (csvParse content).rows.length, column := none,
              message := "Parsing error: " ++ m }]
      columnCount := effColumnCount content
      rowCount := 0 }

/-- `validateCsvContent` of `csvValidator.ts`.  The promise executor takes only
`resolve`: both the `end` handler and the `error` handler resolve with the
accumulated result, so the `Except` error channel (promise rejection) is never
used. -/
def validateCsvContent (content : String) (opts : CsvValidationOptions) :
    Except String ValidationResult :=
  Except.ok (validateCsvContentRun content opts)

/-! ## The duplicate fail-fast validator (the unnamed module, `part_000`)

The repository carries a second implementation of `validateCsvContent` whose
promise executor also takes `reject`, and which rejects mid-pass: on missing
required columns (checked against the raw first line before parsing), on the
first failing type or empty-value check inside the data handler, on a parse
error, and at `end` whenever any error was accumulated.  Only the first
settlement of the promise counts. -/

/-- JavaScript `String.split(sep)` on character lists (one-character
separator): the separated pieces, empty pieces kept. -/
def splitOnChar (sep : Char) : List Char → List (List Char)
  | [] => [[]]
  | c :: rest =>
    let r := splitOnChar sep rest
    if c = sep then [] :: r
    else
      match r with
      | h :: t => (c :: h) :: t
      | [] => [[c]]

/-- `validateDataType` of the duplicate module: it trims the value first and
its `string` case requires a non-empty trimmed value. -/
def validateDataTypeAlt (value : String) : ColType → Bool
  | ColType.number => (jsStrToNumber (jsTrim value)).isSome && !(jsTrim value == "")
  | ColType.boolean => ["true", "false", "0", "1"].contains (jsToLower (jsTrim value))
  | ColType.date => jsDateParseValid (jsTrim value)
  | ColType.string => !(jsTrim value == "")

/-- The duplicate module's `on_record` hook: the first `columnTypes` entry
whose present, non-empty-trimmed value fails its predicate makes the hook
throw (message built from the raw value). -/
def altOnRecord (opts : CsvValidationOptions) (row : RowObj) : Option String :=
  (opts.columnTypes.find? (fun p =>
    match jsLookup row p.1 with
    | some v => !(jsTrim v == "") && !(validateDataTypeAlt (jsTrim v) p.2)
    | none => false)).map (fun p =>
      "Invalid " ++ typeName p.2 ++ " value '" ++ ((jsLookup row p.1).getD "")
        ++ "' in column '" ++ p.1 ++ "'")

/-- The duplicate module's data-handler type-check loop over
`Object.entries(options.columnTypes)`: the first failing entry rejects. -/
def altTypeSettle (opts : CsvValidationOptions) (row : RowObj) : Option String :=
  (opts.columnTypes.find? (fun p =>
    match jsLookup row p.1 with
    | some v => !(jsTrim v == "") && !(validateDataTypeAlt (jsTrim v) p.2)
    | none => false)).map (fun p =>
      "Invalid " ++ typeName p.2 ++ " value '" ++ ((jsLookup row p.1).getD "")
        ++ "' in column '" ++ p.1 ++ "'")

/-- The duplicate module's `for (const [column, value] of Object.entries(row))`
loop: the first column that is empty (with `allowEmptyValues` off) or fails its
type predicate rejects and returns from the handler. -/
def altLoopSettle (opts : CsvValidationOptions) (row : RowObj) : Option String :=
  row.findSome? (fun p =>
    if !opts.allowEmptyValues && jsTrim p.2 == "" then
      some ("Empty value not allowed in column '" ++ p.1 ++ "'")
    else
      match lookupType opts.columnTypes p.1 with
      | some t =>
        if validateDataTypeAlt p.2 t then none
        else some ("Invalid " ++ typeName t ++ " value '" ++ p.2 ++ "' in column '"
          ++ p.1 ++ "'")
      | none => none)

/-- First rejection a data event of the duplicate module produces for one row:
the type-check loop settles before the entries loop. -/
def altRowSettle (opts : CsvValidationOptions) (row : RowObj) : Option String :=
  match altTypeSettle opts row with
  | some m => some m
  | none => altLoopSettle opts row

/-- Rendering of one `ValidationError` as the converter and the duplicate
module join them: `Row <r>[, Column <c>]: <message>` (an empty column name is
falsy and drops the column part). -/
def renderError (e : ValidationError) : String :=
  "Row " ++ toString e.row
    ++ (match e.column with
      | some c => if c == "" then "" else ", Column " ++ c
      | none => "")
    ++ ": " ++ e.message

/-- The newline-joined rendering of a list of validation errors. -/
def renderErrors (l : List ValidationError) : String :=
  String.intercalate ("\n") (l.map renderError)

/-- `validateCsvContent` of the duplicate module: required columns are checked
against the raw first line and reject before parsing; the parse runs with the
`on_record` hook; the first data-handler rejection wins, then a parse error
rejects, then `end` rejects when any error (only max-row-length pushes can
remain unsettled) was accumulated, and resolves otherwise. -/
def validateCsvContentAlt (content : String) (opts : CsvValidationOptions) :
    Except String ValidationResult :=
  let firstLine := content.data.takeWhile (fun c => !(c = '\n'))
  let headerRow := (splitOnChar ',' firstLine).map (fun cs => String.mk (jsTrimChars cs))
  let missing :=
    match opts.requiredColumns with
    | some req => req.filter (fun col => !(headerRow.contains col))
    | none => []
  if !missing.isEmpty then
    Except.error ("Missing required columns: " ++ String.intercalate (", ") missing)
  else
    let p := csvParseWith (altOnRecord opts) content
    let cc := ((p.header.getD []).filter (fun h => !(h == ""))).length
    match p.rows.findSome? (altRowSettle opts) with
    | some m => Except.error m
    | none =>
      match p.err with
      | some m => Except.error ("CSV parsing error: " ++ m)
      | none =>
        let errs := p.rows.enum.flatMap (fun q =>
          match opts.maxRowLength with
          | some m => if m ≠ 0 ∧ q.2.length > m then [maxLengthError (q.1 + 1) m] else []
          | none => [])
        if errs.isEmpty then
          Except.ok
            { isValid := true
              errors := []
              columnCount := cc
              rowCount := p.rows.length }
        else Except.error ("CSV validation failed:\n" ++ renderErrors errs)

/-! ## Converter (`src/utils/csvToJson.ts`) -/

/-- `CsvToJsonOptions`.  `headers` only matters through `=== false`
(`columns: options.headers === false ? false : true`); multi-character custom
delimiters are out of scope. -/
structure CsvToJsonOptions where
  delimiter : Option Char := none
  skipEmptyLines : Option Bool := none
  trimValues : Option Bool := none
  headers : Option Bool := none
  validation : Option CsvValidationOptions := none

/-- The records the conversion path yields: name-keyed row objects with
`columns: true`, positional field lists otherwise. -/
inductive JsonRecords where
  | objs : List RowObj → JsonRecords
  | arrays : List (List String) → JsonRecords
deriving DecidableEq

/-- Strict column-count check of the conversion parse (every record against the
first record's field count). -/
def strictCheck (hdr : List String) : List (List String) → Option String
  | [] => none
  | r :: rest =>
    if r.length ≠ hdr.length then
      some ("Invalid Record Length: expect " ++ toString hdr.length ++ ", got "
        ++ toString r.length)
    else strictCheck hdr rest

/-- The conversion parse: delimiter defaults to a comma,
`skip_empty_lines: options.skipEmptyLines !== false`,
`trim: options.trimValues !== false`, columns mode unless `headers === false`. -/
def csvParseRecords (content : String) (o : CsvToJsonOptions) : Except String JsonRecords :=
  let delim := o.delimiter.getD ','
  let skip := !(o.skipEmptyLines == some false)
  let trim := !(o.trimValues == some false)
  let tok := tokenizeCsv delim trim skip content
  match tok.2 with
  | some m => Except.error m
  | none =>
    match tok.1 with
    | [] => if o.headers == some false then Except.ok (JsonRecords.arrays [])
      else Except.ok (JsonRecords.objs [])
    | hdr :: rest =>
      match strictCheck hdr rest with
      | some m => Except.error m
      | none =>
        if o.headers == some false then Except.ok (JsonRecords.arrays (hdr :: rest))
        else Except.ok (JsonRecords.objs (rest.map (mkRowObj hdr)))

/-- `csvStringToJson`.  With validation options present the validator runs
first; an invalid result throws `CSV validation failed:` plus the rendered
errors inside the `try`, and the `catch` rewraps it as `Failed to parse CSV
string: …`.  The parse promise is returned without `await`, so its own
rejections keep the inner `Failed to parse CSV string:` prefix only. -/
def csvStringToJson (csvString : String) (o : CsvToJsonOptions) :
    Except String JsonRecords :=
  match o.validation with
  | some vo =>
    match validateCsvContent csvString vo with
    | Except.error m => Except.error ("Failed to parse CSV string: " ++ m)
    | Except.ok r =>
      if r.isValid then
        match csvParseRecords csvString o with
        | Except.error m => Except.error ("Failed to parse CSV string: " ++ m)
        | Except.ok recs => Except.ok recs
      else
        Except.error ("Failed to parse CSV string: CSV validation failed:\n"
          ++ renderErrors r.errors)
  | none =>
    match csvParseRecords csvString o with
    | Except.error m => Except.error ("Failed to parse CSV string: " ++ m)
    | Except.ok recs => Except.ok recs

/-- `csvToJson`, taken at the content the file read yields (reading itself is
I/O and out of scope).  A validation failure throws inside the `try` and the
`catch` rewraps it as `Failed to read or parse CSV file: …`; the parse promise
is returned without `await`, so parse rejections keep the `Failed to parse
CSV:` prefix. -/
def csvToJson (fileContent : String) (o : CsvToJsonOptions) :
    Except String JsonRecords :=
  match o.validation with
  | some vo =>
    match validateCsvContent fileContent vo with
    | Except.error m => Except.error ("Failed to read or parse CSV file: " ++ m)
    | Except.ok r =>
      if r.isValid then
        match csvParseRecords fileContent o with
        | Except.error m => Except.error ("Failed to parse CSV: " ++ m)
        | Except.ok recs => Except.ok recs
      else
        Except.error ("Failed to read or parse CSV file: CSV validation failed:\n"
          ++ renderErrors r.errors)
  | none =>
    match csvParseRecords fileContent o with
    | Except.error m => Except.error ("Failed to parse CSV: " ++ m)
    | Except.ok recs => Except.ok recs

deriving instance DecidableEq for Except

/-! ## Structural lemmas about the validator's error aggregation -/

theorem mem_fieldErrors_row {idx : Nat} {opts : CsvValidationOptions}
    {c v : String} {e : ValidationError} (h : e ∈ fieldErrors idx opts c v) :
    e.row = idx := by
  unfold fieldErrors at h
  rcases List.mem_append.mp h with h | h
  · split at h <;> simp_all [emptyValueError]
  · rcases hl : lookupType opts.columnTypes c with _ | t <;> rw [hl] at h
    · simp at h
    · split at h <;> simp_all [typeError]

theorem mem_rowErrors_row {opts : CsvValidationOptions} {cc idx : Nat}
    {row : RowObj} {e : ValidationError} (h : e ∈ rowErrors opts cc idx row) :
    e.row = idx := by
  unfold rowErrors at h
  rcases List.mem_append.mp h with h | h
  · rcases List.mem_append.mp h with h | h
    · split at h <;> simp_all [inconsistentError]
    · rcases hm : opts.maxRowLength with _ | m <;> rw [hm] at h
      · simp at h
      · split at h <;> simp_all [maxLengthError]
  · rcases List.mem_flatMap.mp h with ⟨p, _, hp⟩
    exact mem_fieldErrors_row hp

theorem mem_rowErrors_of_field {opts : CsvValidationOptions} {cc idx : Nat}
    {row : RowObj} {c v : String} {e : ValidationError}
    (hm : (c, v) ∈ row) (he : e ∈ fieldErrors idx opts c v) :
    e ∈ rowErrors opts cc idx row := by
  unfold rowErrors
  exact List.mem_append.mpr (Or.inr (List.mem_flatMap.mpr ⟨(c, v), hm, he⟩))

theorem mem_allRowErrors_of {content : String} {opts : CsvValidationOptions}
    {i : Nat} {row : RowObj} {e : ValidationError}
    (h1 : (csvParse content).rows[i]? = some row)
    (h2 : e ∈ rowErrors opts (effColumnCount content) (i + 1) row) :
    e ∈ allRowErrors content opts := by
  unfold allRowErrors
  exact List.mem_flatMap.mpr ⟨(i, row), List.mk_mem_enum_iff_getElem?.mpr h1, h2⟩

theorem mem_allRowErrors_row_pos {content : String} {opts : CsvValidationOptions}
    {e : ValidationError} (h : e ∈ allRowErrors content opts) : 1 ≤ e.row := by
  unfold allRowErrors at h
  rcases List.mem_flatMap.mp h with ⟨p, _, hp⟩
  rw [mem_rowErrors_row hp]
  omega

/-- The tail the parser `error` handler appends to the accumulated errors. -/
def parseErrorTail (content : String) : List ValidationError :=
  match (csvParse content).err with
  | none => []
  | some m => [⟨(csvParse content).rows.length, none, "Parsing error: " ++ m⟩]

theorem run_errors_decomp (content : String) (opts : CsvValidationOptions) :
    (validateCsvContentRun content opts).errors =
      headerPhaseErrors content opts ++ allRowErrors content opts
        ++ parseErrorTail content := by
  unfold validateCsvContentRun parseErrorTail
  cases (csvParse content).err <;> simp

theorem mem_run_errors_of {content : String} {opts : CsvValidationOptions}
    {i : Nat} {row : RowObj} {e : ValidationError}
    (h1 : (csvParse content).rows[i]? = some row)
    (h2 : e ∈ rowErrors opts (effColumnCount content) (i + 1) row) :
    e ∈ (validateCsvContentRun content opts).errors := by
  rw [run_errors_decomp]
  exact List.mem_append.mpr (Or.inl (List.mem_append.mpr (Or.inr (mem_allRowErrors_of h1 h2))))

theorem string_append_ne_of_head_ne {a b : Char} {p q : List Char} (hne : a ≠ b)
    (m j : String) :
    String.mk (a :: p) ++ m ≠ String.mk (b :: q) ++ j := by
  intro h
  have h2 : (String.mk (a :: p) ++ m).data = (String.mk (b :: q) ++ j).data := by rw [h]
  have h3 : a :: (p ++ m.data) = b :: (q ++ j.data) := h2
  exact hne (List.cons.inj h3).1

theorem parse_msg_ne_missing_msg (m j : String) :
    "Parsing error: " ++ m ≠ "Missing required columns: " ++ j := by
  have := string_append_ne_of_head_ne (a := 'P') (b := 'M')
    (p := ("arsing error: ").data) (q := ("issing required columns: ").data)
    (by decide) m j
  exact this

/-- The missing-name list of the required-column check. -/
def missingOf (opts : CsvValidationOptions) (content : String) : List String :=
  match opts.requiredColumns with
  | some req => req.filter (fun col => !((effHeaders content).contains col))
  | none => []

theorem headerPhase_eq_of_missing {content : String} {opts : CsvValidationOptions}
    (h1 : opts.requiredColumns.isSome = true)
    (h2 : ((csvParse content).header).isSome = true)
    (h3 : (missingOf opts content).isEmpty = false) :
    headerPhaseErrors content opts = [missingColumnsError (missingOf opts content)] := by
  unfold headerPhaseErrors
  cases hh : (csvParse content).header with
  | none => rw [hh] at h2; simp at h2
  | some hdr =>
    unfold headerErrors
    cases hr : opts.requiredColumns with
    | none => rw [hr] at h1; simp at h1
    | some req =>
      unfold missingOf at h3 ⊢
      rw [hr] at h3 ⊢
      simp only [h3]
      rw [if_neg]
      simp [h3]

/-! ## C1: the live validator never rejects and aggregates every field-level
violation; the duplicate fail-fast implementation rejects mid-pass. -/

/-- C1 (amended): `validateCsvContent` of `csvValidator.ts` — the validator the
converter uses — never rejects: for every content and options its promise
resolves with the accumulated `ValidationResult`, whose error list is exactly
the header-phase errors (missing required columns), followed by every data
row's errors (inconsistent column count, row length, empty-value and type
violations) in row order, followed by the parsing-error entry when the parse
aborted; in particular every violation of each kind found during the pass is
contained in the result. -/
theorem validator_never_rejects_and_aggregates
    (content : String) (opts : CsvValidationOptions) :
    validateCsvContent content opts = Except.ok (validateCsvContentRun content opts) ∧
    (validateCsvContentRun content opts).errors
      = headerPhaseErrors content opts ++ allRowErrors content opts
        ++ parseErrorTail content ∧
    (∀ e, e ∈ headerPhaseErrors content opts
      → e ∈ (validateCsvContentRun content opts).errors) ∧
    (∀ i row e, (csvParse content).rows[i]? = some row
      → e ∈ rowErrors opts (effColumnCount content) (i + 1) row
      → e ∈ (validateCsvContentRun content opts).errors) ∧
    (∀ m, (csvParse content).err = some m
      → (⟨(csvParse content).rows.length, none, "Parsing error: " ++ m⟩ : ValidationError)
        ∈ (validateCsvContentRun content opts).errors) := by
  refine ⟨rfl, run_errors_decomp content opts, ?_, ?_, ?_⟩
  · intro e he
    rw [run_errors_decomp]
    exact List.mem_append.mpr (Or.inl (List.mem_append.mpr (Or.inl he)))
  · intro i row e h1 h2
    exact mem_run_errors_of h1 h2
  · intro m hm
    rw [run_errors_decomp]
    refine List.mem_append.mpr (Or.inr ?_)
    unfold parseErrorTail
    rw [hm]
    simp

/-- C1 witness: at `"name,age\nJohn,x\n"` the call resolves and the type
violation of row 1 is in the aggregated result. -/
theorem validator_never_rejects_and_aggregates_witness :
    validateCsvContent ("name,age\nJohn,x\n") { columnTypes := [("age", ColType.number)] }
      = Except.ok (validateCsvContentRun ("name,age\nJohn,x\n")
        { columnTypes := [("age", ColType.number)] }) ∧
    typeError (0 + 1) ("age") ("x") ColType.number
      ∈ (validateCsvContentRun ("name,age\nJohn,x\n")
        { columnTypes := [("age", ColType.number)] }).errors :=
  ⟨(validator_never_rejects_and_aggregates ("name,age\nJohn,x\n")
      { columnTypes := [("age", ColType.number)] }).1,
   (validator_never_rejects_and_aggregates ("name,age\nJohn,x\n")
      { columnTypes := [("age", ColType.number)] }).2.2.2.1 0
    [("name", "John"), ("age", "x")] (typeError (0 + 1) ("age") ("x") ColType.number)
    (by decide)
    (@mem_rowErrors_of_field { columnTypes := [("age", ColType.number)] }
      (effColumnCount ("name,age\nJohn,x\n")) (0 + 1)
      [("name", "John"), ("age", "x")] ("age") ("x")
      (typeError (0 + 1) ("age") ("x") ColType.number)
      (by decide) (by decide))⟩

/-- C1 counterexample: the duplicate `validateCsvContent` (the unnamed module)
rejects mid-pass — here on the required-column check, before any row is
validated — so the claim is false of that implementation. -/
theorem validator_alt_rejects_counterexample :
    validateCsvContentAlt ("name,city\nJohn,NYC\n")
        { requiredColumns := some ["name", "age", "city"] }
      = Except.error ("Missing required columns: age") := by decide

/-! ## C2: scenario A -/

/-- C2: content `"name,age,city\nJohn,30,NYC\n"` with `columnTypes =
{age: number}` validates to `isValid = true`, `rowCount = 1`,
`columnCount = 3`, with an empty error list, and the promise resolves with
exactly that result. -/
theorem scenarioA_valid_result :
    validateCsvContentRun ("name,age,city\nJohn,30,NYC\n")
        { columnTypes := [("age", ColType.number)] }
      = { isValid := true, errors := [], columnCount := 3, rowCount := 1 } ∧
    validateCsvContent ("name,age,city\nJohn,30,NYC\n")
        { columnTypes := [("age", ColType.number)] }
      = Except.ok { isValid := true, errors := [], columnCount := 3, rowCount := 1 } := by
  decide

/-! ## C3: the empty-value check does not suppress the type check -/

/-- C3 (amended): when `allowEmptyValues` is false and a field's trimmed value
is empty, the empty-value error is recorded, and — the type check not being
skipped for empty values — a type error for the same row and column is
additionally recorded whenever the column's declared type rejects the value. -/
theorem empty_value_and_type_error_both_recorded
    (content : String) (opts : CsvValidationOptions) (i : Nat) (row : RowObj)
    (column value : String) (t : ColType)
    (h1 : (csvParse content).rows[i]? = some row)
    (h2 : (column, value) ∈ row)
    (h3 : opts.allowEmptyValues = false)
    (h4 : jsTrim value = "")
    (h5 : lookupType opts.columnTypes column = some t)
    (h6 : validateDataType value t = false) :
    emptyValueError (i + 1) column ∈ (validateCsvContentRun content opts).errors ∧
    typeError (i + 1) column value t ∈ (validateCsvContentRun content opts).errors := by
  constructor
  · exact mem_run_errors_of h1 (mem_rowErrors_of_field h2
      (by simp [fieldErrors, h3, h4, h5, h6]))
  · exact mem_run_errors_of h1 (mem_rowErrors_of_field h2
      (by simp [fieldErrors, h3, h4, h5, h6]))

/-- C3 witness: in `"name,age\nJohn,\n"` with `age: number` both the
empty-value error and the invalid-number error are recorded for row 1,
column `age`. -/
theorem empty_value_and_type_error_witness :
    emptyValueError (0 + 1) ("age")
      ∈ (validateCsvContentRun ("name,age\nJohn,\n")
        { columnTypes := [("age", ColType.number)] }).errors ∧
    typeError (0 + 1) ("age") ("") ColType.number
      ∈ (validateCsvContentRun ("name,age\nJohn,\n")
        { columnTypes := [("age", ColType.number)] }).errors :=
  empty_value_and_type_error_both_recorded ("name,age\nJohn,\n")
    { columnTypes := [("age", ColType.number)] } 0 [("name", "John"), ("age", "")]
    ("age") ("") ColType.number (by decide) (by decide) rfl (by decide) (by decide)
    (by decide)

/-- C3 counterexample: for `"name,age\nJohn,\n"` with `age: number` and
`allowEmptyValues = false`, two errors — not exactly one — are recorded for the
pair (row 1, column age). -/
theorem empty_value_single_report_counterexample :
    ((validateCsvContentRun ("name,age\nJohn,\n")
        { columnTypes := [("age", ColType.number)] }).errors.filter
      (fun e => e.row == 1 && e.column == some ("age"))).length = 2 := by decide

/-! ## C4: the converter's validation-failure error message -/

/-- C4 (amended): with validation options present and an invalid validation
result, both converters raise and return no records; the raised message is the
catch-block wrapper (`Failed to parse CSV string: ` / `Failed to read or parse
CSV file: `) followed by `CSV validation failed:`, a newline, and the
newline-joined rendering of every error as `Row <r>[, Column <c>]: <message>`
in original order. -/
theorem conversion_rejects_invalid
    (content : String) (o : CsvToJsonOptions) (vo : CsvValidationOptions)
    (h1 : o.validation = some vo)
    (h2 : (validateCsvContentRun content vo).isValid = false) :
    csvStringToJson content o
      = Except.error ("Failed to parse CSV string: CSV validation failed:\n"
        ++ renderErrors (validateCsvContentRun content vo).errors) ∧
    csvToJson content o
      = Except.error ("Failed to read or parse CSV file: CSV validation failed:\n"
        ++ renderErrors (validateCsvContentRun content vo).errors) := by
  constructor
  · unfold csvStringToJson
    rw [h1]
    unfold validateCsvContent
    simp [h2]
  · unfold csvToJson
    rw [h1]
    unfold validateCsvContent
    simp [h2]

/-- C4 witness: the invalid-number input raises with the wrapped, rendered
message through both converters. -/
theorem conversion_rejects_invalid_witness :
    csvStringToJson ("name,age\nJohn,x\n")
        { validation := some { columnTypes := [("age", ColType.number)] } }
      = Except.error ("Failed to parse CSV string: CSV validation failed:\n"
        ++ renderErrors (validateCsvContentRun ("name,age\nJohn,x\n")
          { columnTypes := [("age", ColType.number)] }).errors) ∧
    csvToJson ("name,age\nJohn,x\n")
        { validation := some { columnTypes := [("age", ColType.number)] } }
      = Except.error ("Failed to read or parse CSV file: CSV validation failed:\n"
        ++ renderErrors (validateCsvContentRun ("name,age\nJohn,x\n")
          { columnTypes := [("age", ColType.number)] }).errors) :=
  conversion_rejects_invalid ("name,age\nJohn,x\n")
    { validation := some { columnTypes := [("age", ColType.number)] } }
    { columnTypes := [("age", ColType.number)] } rfl (by decide)

/-- C4 counterexample: the raised message is not the newline-joined rendering
of the errors itself — it carries the converter's wrapper prefixes in front. -/
theorem conversion_message_not_bare_rendering_counterexample :
    csvStringToJson ("name,city\nJohn,NYC\n")
        { validation := some { requiredColumns := some ["name", "age", "city"] } }
      = Except.error
        ("Failed to parse CSV string: CSV validation failed:\nRow 0: Missing required columns: age") ∧
    ("Failed to parse CSV string: CSV validation failed:\nRow 0: Missing required columns: age"
      ≠ renderErrors [missingColumnsError ["age"]]) := by
  constructor
  · decide
  · decide

/-! ## C5: one aggregated missing-required-columns error -/

/-- C5: when required columns are given, the header was produced, and the
missing-name list is non-empty, the result contains exactly one occurrence of
the aggregated row-0 error `Missing required columns: <comma-joined missing
names>` (not one error per missing column). -/
theorem required_columns_single_aggregated_error
    (content : String) (opts : CsvValidationOptions)
    (h1 : opts.requiredColumns.isSome = true)
    (h2 : ((csvParse content).header).isSome = true)
    (h3 : (missingOf opts content).isEmpty = false) :
    (validateCsvContentRun content opts).errors.filter
        (fun e => decide (e = missingColumnsError (missingOf opts content)))
      = [missingColumnsError (missingOf opts content)] := by
  rw [run_errors_decomp, List.filter_append, List.filter_append,
    headerPhase_eq_of_missing h1 h2 h3]
  have har : (allRowErrors content opts).filter
      (fun e => decide (e = missingColumnsError (missingOf opts content))) = [] := by
    rw [List.filter_eq_nil_iff]
    intro e he
    simp only [decide_eq_true_eq]
    intro heq
    have hpos := mem_allRowErrors_row_pos he
    rw [heq] at hpos
    simp [missingColumnsError] at hpos
  have htail : (parseErrorTail content).filter
      (fun e => decide (e = missingColumnsError (missingOf opts content))) = [] := by
    unfold parseErrorTail
    cases (csvParse content).err with
    | none => rfl
    | some m =>
      have hne : (⟨(csvParse content).rows.length, none, "Parsing error: " ++ m⟩ :
          ValidationError) ≠ missingColumnsError (missingOf opts content) := by
        intro h
        exact parse_msg_ne_missing_msg m _ (congrArg ValidationError.message h)
      simp [hne]
  rw [har, htail]
  simp

/-- C5 witness: scenario C — `"name,city\nJohn,NYC\n"` with required columns
`name, age, city` yields exactly one row-0 error naming `age` as missing. -/
theorem required_columns_single_aggregated_error_witness :
    (validateCsvContentRun ("name,city\nJohn,NYC\n")
        { requiredColumns := some ["name", "age", "city"] }).errors.filter
        (fun e => decide (e = missingColumnsError
          (missingOf { requiredColumns := some ["name", "age", "city"] }
            ("name,city\nJohn,NYC\n"))))
      = [missingColumnsError
          (missingOf { requiredColumns := some ["name", "age", "city"] }
            ("name,city\nJohn,NYC\n"))] :=
  required_columns_single_aggregated_error ("name,city\nJohn,NYC\n")
    { requiredColumns := some ["name", "age", "city"] } (by decide) (by decide) (by decide)

/-! ## C6: the number predicate and non-finite values -/

/-- The spec's `number` predicate (§4.2.1): the trimmed value is non-empty and
parses as a finite numeric literal. -/
def specNumberPredicate (value : String) : Bool :=
  (match jsStrToNumber value with
    | some (JsNum.fin _) => true
    | _ => false) && !(jsTrim value == "")

/-- C6 (amended): the `number` predicate accepts a value iff `Number(value)` is
not NaN and the trimmed value is non-empty — non-finite parses such as
`Infinity` are accepted, not rejected. -/
theorem number_predicate_accepts_non_nan (value : String) :
    validateDataType value ColType.number = true
      ↔ (jsStrToNumber value ≠ none ∧ jsTrim value ≠ "") := by
  unfold validateDataType
  rw [Bool.and_eq_true, Option.isSome_iff_ne_none]
  constructor
  · intro h
    exact ⟨h.1, by simpa using h.2⟩
  · intro h
    exact ⟨h.1, by simpa using h.2⟩

/-- C6 counterexample: `Infinity` trims non-empty and parses to a non-finite
number, so the spec's predicate rejects it, yet the code accepts it. -/
theorem number_accepts_infinity_counterexample :
    validateDataType ("Infinity") ColType.number = true ∧
    jsStrToNumber ("Infinity") = some JsNum.posInf ∧
    specNumberPredicate ("Infinity") = false := by decide

/-! ## C7: `isValid` iff the error list is empty -/

/-- C7: on every path — the `end` handler and the parser `error` handler alike
— the finalized result satisfies `isValid = errors.isEmpty`. -/
theorem isValid_iff_no_errors (content : String) (opts : CsvValidationOptions) :
    (validateCsvContentRun content opts).isValid
      = (validateCsvContentRun content opts).errors.isEmpty := by
  unfold validateCsvContentRun
  cases (csvParse content).err <;> simp

/-! ## C8: structural violations resolve as an ordinary result -/

/-- C8 (amended): a structural parse failure aborts the parse, but
`validateCsvContent` does not propagate it to the caller: the promise resolves
with an ordinary `ValidationResult` whose `isValid` is false and which carries
a `Parsing error: <message>` entry at the number of rows validated before the
abort. -/
theorem parse_error_resolved_as_result
    (content : String) (opts : CsvValidationOptions) (m : String)
    (h : (csvParse content).err = some m) :
    validateCsvContent content opts = Except.ok (validateCsvContentRun content opts) ∧
    (validateCsvContentRun content opts).isValid = false ∧
    (⟨(csvParse content).rows.length, none, "Parsing error: " ++ m⟩ : ValidationError)
      ∈ (validateCsvContentRun content opts).errors := by
  refine ⟨rfl, ?_, ?_⟩
  · unfold validateCsvContentRun
    rw [h]
  · unfold validateCsvContentRun
    rw [h]
    simp

/-- C8 witness: the ragged content `"a,b\nx\n"` (strict column count) resolves
with the parsing-error entry. -/
theorem parse_error_resolved_as_result_witness :
    validateCsvContent ("a,b\nx\n") {} = Except.ok (validateCsvContentRun ("a,b\nx\n") {}) ∧
    (validateCsvContentRun ("a,b\nx\n") {}).isValid = false ∧
    (⟨(csvParse ("a,b\nx\n")).rows.length, none,
        "Parsing error: " ++ "Invalid Record Length: expect 2, got 1"⟩ : ValidationError)
      ∈ (validateCsvContentRun ("a,b\nx\n") {}).errors :=
  parse_error_resolved_as_result ("a,b\nx\n") {}
    ("Invalid Record Length: expect 2, got 1") (by decide)

/-- C8 counterexample: for a ragged row under strict column-count mode the call
does not fail with a propagating `ParseError` — it resolves with an ordinary
`ValidationResult` carrying the parsing error. -/
theorem parse_error_delivered_as_result_counterexample :
    validateCsvContent ("a,b\nx\n") {}
      = Except.ok
        { isValid := false
          errors := [⟨0, none, "Parsing error: Invalid Record Length: expect 2, got 1"⟩]
          columnCount := 2
          rowCount := 0 } := by decide

/-! ## C9: the maximum-row-length check and JavaScript truthiness -/

/-- C9 (amended): when `maxRowLength` is set to a nonzero value and a row's
populated-field count exceeds it, the no-column error `Row exceeds maximum
length of <N>` is recorded for that row.  (A `maxRowLength` of 0 is falsy and
disables the check.) -/
theorem max_row_length_error_recorded
    (content : String) (opts : CsvValidationOptions) (i n : Nat) (row : RowObj)
    (h1 : (csvParse content).rows[i]? = some row)
    (h2 : opts.maxRowLength = some n)
    (h3 : n ≠ 0)
    (h4 : populatedCount row > n) :
    maxLengthError (i + 1) n ∈ (validateCsvContentRun content opts).errors := by
  apply mem_run_errors_of h1
  unfold rowErrors
  refine List.mem_append.mpr (Or.inl (List.mem_append.mpr (Or.inr ?_)))
  rw [h2]
  simp [h3, h4]

/-- C9 witness: scenario E — `maxRowLength = 2` and a row with 3 populated
fields yields the no-column error mentioning `maximum length of 2`. -/
theorem max_row_length_error_recorded_witness :
    maxLengthError (0 + 1) 2
      ∈ (validateCsvContentRun ("a,b,c\nx,y,z\n") { maxRowLength := some 2 }).errors :=
  max_row_length_error_recorded ("a,b,c\nx,y,z\n") { maxRowLength := some 2 } 0 2
    [("a", "x"), ("b", "y"), ("c", "z")] (by decide) rfl (by decide) (by decide)

/-- C9 counterexample: with `maxRowLength` set to 0 and a row with 3 populated
fields (3 > 0), no error at all is recorded — JavaScript truthiness skips the
check — refuting the claim's "including the value 0". -/
theorem max_row_length_zero_counterexample :
    validateCsvContentRun ("name,age,city\nJohn,30,NYC\n") { maxRowLength := some 0 }
      = { isValid := true, errors := [], columnCount := 3, rowCount := 1 } ∧
    (csvParse ("name,age,city\nJohn,30,NYC\n")).rows
      = [[("name", "John"), ("age", "30"), ("city", "NYC")]] ∧
    populatedCount [("name", "John"), ("age", "30"), ("city", "NYC")] = 3 := by decide

/-! ## C10: the inconsistent-column-count error counts only non-empty values -/

/-- C10: whenever a data row's populated-field count differs from the recorded
column count, the error `Inconsistent column count: expected <cc>, got <n>`
(no column attached) is recorded for that row. -/
theorem inconsistent_count_error_recorded
    (content : String) (opts : CsvValidationOptions) (i : Nat) (row : RowObj)
    (h1 : (csvParse content).rows[i]? = some row)
    (h2 : populatedCount row ≠ effColumnCount content) :
    inconsistentError (i + 1) (effColumnCount content) (populatedCount row)
      ∈ (validateCsvContentRun content opts).errors := by
  apply mem_run_errors_of h1
  unfold rowErrors
  refine List.mem_append.mpr (Or.inl (List.mem_append.mpr (Or.inl ?_)))
  simp [h2]

/-- C10 witness: in `"name,age\nJohn,\n"` the data row's raw field count
matches the header's, but only 1 value is non-empty against a column count of
2, so the inconsistent-column-count error is recorded. -/
theorem inconsistent_count_error_recorded_witness :
    inconsistentError (0 + 1) (effColumnCount ("name,age\nJohn,\n"))
        (populatedCount [("name", "John"), ("age", "")])
      ∈ (validateCsvContentRun ("name,age\nJohn,\n") {}).errors :=
  inconsistent_count_error_recorded ("name,age\nJohn,\n") {} 0
    [("name", "John"), ("age", "")] (by decide) (by decide)

end DataPipeline
